import Mathlib

/-!
Verification of the Primordia core: the game-state data model (`models.py`)
and the heuristic position evaluator (`evaluation.py`).

Numeric semantics: the Python source computes with `int` values and float
division; the divisions performed by the evaluator are embedded exactly
over `ℚ`.  The one transcendental step, `math.exp` inside the
win-probability sigmoid, is modelled by an explicit function parameter
`expFn : ℚ → ℚ` standing for the float `exp` primitive; the exact
real-valued sigmoid `1 / (1 + exp (-x * 3))` is studied separately over
`ℝ` for its analytic properties.
-/

namespace Primordia

/-- Game phases in a turn (`models.py`, class `Phase`). -/
inductive Phase where
  | COMMAND
  | MOVEMENT
  | SHOOTING
  | CHARGE
  | FIGHT
  | MORALE
deriving DecidableEq, Repr

/-- Unit status on the battlefield (`models.py`, class `UnitStatus`). -/
inductive UnitStatus where
  | ACTIVE
  | DESTROYED
  | FLED
  | IN_RESERVE
deriving DecidableEq, Repr

/-- A unit on the battlefield (`models.py`, class `Unit`).  The opaque
`UUID` identifier is modelled as a `Nat`; the float position coordinates,
irrelevant to evaluation, are modelled as rationals.  Field types follow
the source (`int` fields are `Int`: the source puts no range constraint
on them). -/
structure Unit where
  id : Nat := 0
  name : String := ""
  faction : String := ""
  wounds_current : Int
  wounds_max : Int
  models_current : Int := 0
  models_max : Int := 0
  position_x : ℚ := 0
  position_y : ℚ := 0
  status : UnitStatus := .ACTIVE
  has_moved : Bool := false
  has_shot : Bool := false
  has_charged : Bool := false
  has_fought : Bool := false
  points_cost : Int := 0
  keywords : List String := []
deriving DecidableEq, Repr

/-- `Unit.is_alive` (`models.py` line 66): status is ACTIVE and
`wounds_current > 0`. -/
def Unit.is_alive (u : Unit) : Bool :=
  u.status = UnitStatus.ACTIVE ∧ 0 < u.wounds_current

/-- The complete state of a game at a point in time (`models.py`, class
`GameState`).  `move_history` and `created_at` are never read by the
evaluator or by any claim and are omitted. -/
structure GameState where
  id : Nat := 0
  turn_number : Int := 1
  current_phase : Phase := .COMMAND
  active_player : Int := 1
  player1_units : List Unit := []
  player2_units : List Unit := []
  mission : String := "unknown"
  deployment_type : String := "unknown"
  player1_vp : Int := 0
  player2_vp : Int := 0
deriving DecidableEq, Repr

/-- `GameState.all_units` (`models.py` line 139): concatenation of both
rosters. -/
def GameState.all_units (s : GameState) : List Unit :=
  s.player1_units ++ s.player2_units

/-- `GameState.active_units` (`models.py` line 144). -/
def GameState.active_units (s : GameState) : List Unit :=
  s.all_units.filter (fun u => u.is_alive)

/-- `GameState.get_unit` (`models.py` lines 146-151): first-match linear
lookup across both rosters. -/
def GameState.get_unit (s : GameState) (unit_id : Nat) : Option Unit :=
  s.all_units.find? (fun u => u.id = unit_id)

/-- GameState construction as it exists in the source: `GameState` is a
pydantic model with no custom validators (`models.py` lines 108-151), so
construction with well-typed field values always succeeds — in
particular, no duplicate-unit-id check is performed and no
`InvalidStateError` class exists anywhere in the repository.  Rendered
`Except`-valued so it can be compared with the validating constructor
the spec mandates. -/
def GameState.construct (p1 p2 : List Unit) (turn v1 v2 : Int) :
    Except String GameState :=
  .ok { turn_number := turn, player1_units := p1, player2_units := p2,
        player1_vp := v1, player2_vp := v2 }

/-- The unit ids appearing across both rosters, in roster order. -/
def rosterIds (p1 p2 : List Unit) : List Nat :=
  (p1 ++ p2).map (fun u => u.id)

/-- Modelled from the spec: no such check exists in `models.py`.  Spec
§4.1/§7 require construction to "validate on construction that the two
roster collections contain no duplicate unit id (fails with
`InvalidStateError` if violated)". -/
def validateRosters (p1 p2 : List Unit) :
    Except String (List Unit × List Unit) :=
  if (rosterIds p1 p2).Nodup then .ok (p1, p2)
  else .error "InvalidStateError"

/-- Evaluation of a game position (`evaluation.py`, class
`PositionEvaluation`).  The pydantic `Field` range constraints
(`player_advantage` in [-1,1], `win_probability` in [0,1], `confidence`
in [0,1]) are checked by `PositionEvaluation.fieldConstraintsOk`
below; `win_probability` holds the numeric value the evaluator stores. -/
structure PositionEvaluation where
  player_advantage : ℚ
  win_probability : ℚ
  key_factors : List String := []
  confidence : ℚ := 1/2
  material_score : ℚ := 0
  position_score : ℚ := 0
  tempo_score : ℚ := 0
  vp_score : ℚ := 0
deriving DecidableEq, Repr

/-- The pydantic `Field(ge=..., le=...)` constraints on
`PositionEvaluation` (`evaluation.py` lines 29-32), checked when the
model is constructed. -/
def PositionEvaluation.fieldConstraintsOk (e : PositionEvaluation) : Bool :=
  -1 ≤ e.player_advantage ∧ e.player_advantage ≤ 1 ∧
  0 ≤ e.win_probability ∧ e.win_probability ≤ 1 ∧
  0 ≤ e.confidence ∧ e.confidence ≤ 1

/-- Sum of `points_cost` over living units (`evaluation.py` lines
82-83). -/
def livingPoints (units : List Unit) : Int :=
  ((units.filter (fun u => u.is_alive)).map (fun u => u.points_cost)).sum

/-- Material score (`evaluation.py` lines 85-89): normalized points
difference, 0.0 when the total is not positive. -/
def materialScore (p1_points p2_points : Int) : ℚ :=
  if 0 < p1_points + p2_points then
    ((p1_points - p2_points : Int) : ℚ) / ((p1_points + p2_points : Int) : ℚ)
  else 0

/-- Material key factor (`evaluation.py` lines 91-93): a factor naming
the leading player when `|material_score| > 0.1`. -/
def materialFactors (material_score : ℚ) : List String :=
  if 1/10 < |material_score| then
    [(if 0 < material_score then "Player 1" else "Player 2") ++ " has more material"]
  else []

/-- Victory-point score (`evaluation.py` lines 96-98):
`vp_diff / max(vp_total, 1)` (the dead `else 0.0` guard of the source is
kept). -/
def vpScore (v1 v2 : Int) : ℚ :=
  let vp_diff := v1 - v2
  let max_vp := max (v1 + v2) 1
  if 0 < max_vp then (vp_diff : ℚ) / (max_vp : ℚ) else 0

/-- Victory-point key factor (`evaluation.py` lines 100-102): a factor
naming the leading player when `|vp_diff| >= 5`. -/
def vpFactors (vp_diff : Int) : List String :=
  if 5 ≤ |vp_diff| then
    [(if 0 < vp_diff then "Player 1" else "Player 2") ++ " leads on VP"]
  else []

/-- Clamp of the combined advantage (`evaluation.py` line 106):
`max(-1.0, min(1.0, x))`. -/
def clampAdvantage (x : ℚ) : ℚ :=
  max (-1) (min 1 x)

/-- Confidence from game stage (`evaluation.py` lines 112-113):
`min(0.3 + turn_number * 0.1, 0.9)`. -/
def confidenceAt (turn_number : Int) : ℚ :=
  min (3/10 + (turn_number : ℚ) * (1/10)) (9/10)

/-- `HeuristicEvaluator.evaluate` (`evaluation.py` lines 66-122).
`expFn` stands for `math.exp`. -/
def evaluate (expFn : ℚ → ℚ) (state : GameState) : PositionEvaluation :=
  let p1_points := livingPoints state.player1_units
  let p2_points := livingPoints state.player2_units
  let material_score := materialScore p1_points p2_points
  let vp_diff := state.player1_vp - state.player2_vp
  let vp_score := vpScore state.player1_vp state.player2_vp
  let player_advantage :=
    clampAdvantage (material_score * (4/10) + vp_score * (6/10))
  let win_probability := 1 / (1 + expFn (-player_advantage * 3))
  { player_advantage := player_advantage,
    win_probability := win_probability,
    key_factors := materialFactors material_score ++ vpFactors vp_diff,
    confidence := confidenceAt state.turn_number,
    material_score := material_score,
    vp_score := vp_score }

/-- Evaluation followed by the pydantic range validation performed when
the `PositionEvaluation` model is constructed (`evaluation.py` lines
115-122 together with the `Field` constraints, lines 29-32). -/
def evaluateChecked (expFn : ℚ → ℚ) (state : GameState) :
    Except String PositionEvaluation :=
  let e := evaluate expFn state
  if e.fieldConstraintsOk then .ok e else .error "ValidationError"

/-- The variant of `evaluate` with the clamp of line 106 removed,
for the refinement comparison. -/
def evaluateNoClamp (expFn : ℚ → ℚ) (state : GameState) : PositionEvaluation :=
  let p1_points := livingPoints state.player1_units
  let p2_points := livingPoints state.player2_units
  let material_score := materialScore p1_points p2_points
  let vp_diff := state.player1_vp - state.player2_vp
  let vp_score := vpScore state.player1_vp state.player2_vp
  let player_advantage := material_score * (4/10) + vp_score * (6/10)
  let win_probability := 1 / (1 + expFn (-player_advantage * 3))
  { player_advantage := player_advantage,
    win_probability := win_probability,
    key_factors := materialFactors material_score ++ vpFactors vp_diff,
    confidence := confidenceAt state.turn_number,
    material_score := material_score,
    vp_score := vp_score }

/-- Concrete scenario of spec §8: one living player-1 unit of 200
points against one living player-2 unit of 50 points, no victory
points. -/
def materialScenario : GameState :=
  { player1_units := [{ name := "U1", wounds_current := 1, wounds_max := 1,
                        points_cost := 200 }],
    player2_units := [{ id := 1, name := "U2", wounds_current := 1, wounds_max := 1,
                        points_cost := 50 }] }

/-- A concrete unit used to exhibit a duplicated unit id across the two
rosters. -/
def dupUnit : Unit :=
  { id := 7, wounds_current := 1, wounds_max := 1 }

/-- The state obtained by placing `dupUnit` in both rosters. -/
def dupState : GameState :=
  { turn_number := 1, player1_units := [dupUnit], player2_units := [dupUnit],
    player1_vp := 0, player2_vp := 0 }

/-- The exact real sigmoid of `evaluation.py` line 109:
`1 / (1 + exp (-x * 3))`. -/
noncomputable def sigmoid (x : ℝ) : ℝ :=
  1 / (1 + Real.exp (-x * 3))

/-- Round half to even, the rounding applied by Python when a float is
formatted with `:.0%` (`evaluation.py` line 55). -/
def roundHalfEven (q : ℚ) : Int :=
  let n := ⌊q⌋
  let r := q - (n : ℚ)
  if r < 1/2 then n
  else if 1/2 < r then n + 1
  else if n % 2 = 0 then n else n + 1

/-- The advantage band phrase of `PositionEvaluation.explain`
(`evaluation.py` lines 42-51). -/
def advantagePhrase (player_advantage : ℚ) : String :=
  if 3/10 < player_advantage then "Player 1 has a significant advantage"
  else if 1/10 < player_advantage then "Player 1 has a slight advantage"
  else if player_advantage < -(3/10) then "Player 2 has a significant advantage"
  else if player_advantage < -(1/10) then "Player 2 has a slight advantage"
  else "The position is roughly equal"

/-- The factors text of `explain` (`evaluation.py` line 53): joined
`key_factors`, or the placeholder when the list is empty. -/
def factorsText (key_factors : List String) : String :=
  if key_factors.isEmpty then "No specific factors"
  else String.intercalate ", " key_factors

/-- `PositionEvaluation.explain` (`evaluation.py` lines 40-55). -/
def PositionEvaluation.explain (e : PositionEvaluation) : String :=
  advantagePhrase e.player_advantage ++ ". Key factors: " ++
    factorsText e.key_factors ++ ". Win probability: " ++
    toString (roundHalfEven (e.win_probability * 100)) ++ "%"

/-! ### Helper lemmas -/

theorem evaluate_material_score_eq (expFn : ℚ → ℚ) (s : GameState) :
    (evaluate expFn s).material_score =
      materialScore (livingPoints s.player1_units) (livingPoints s.player2_units) := rfl

theorem evaluate_vp_score_eq (expFn : ℚ → ℚ) (s : GameState) :
    (evaluate expFn s).vp_score = vpScore s.player1_vp s.player2_vp := rfl

theorem evaluate_key_factors_eq (expFn : ℚ → ℚ) (s : GameState) :
    (evaluate expFn s).key_factors =
      materialFactors (materialScore (livingPoints s.player1_units)
          (livingPoints s.player2_units)) ++
        vpFactors (s.player1_vp - s.player2_vp) := rfl

theorem evaluate_player_advantage_eq (expFn : ℚ → ℚ) (s : GameState) :
    (evaluate expFn s).player_advantage =
      clampAdvantage
        (materialScore (livingPoints s.player1_units) (livingPoints s.player2_units) * (4/10) +
          vpScore s.player1_vp s.player2_vp * (6/10)) := rfl

theorem evaluate_confidence_eq (expFn : ℚ → ℚ) (s : GameState) :
    (evaluate expFn s).confidence = confidenceAt s.turn_number := rfl

theorem neg_one_le_clampAdvantage (x : ℚ) : -1 ≤ clampAdvantage x :=
  le_max_left _ _

theorem clampAdvantage_le_one (x : ℚ) : clampAdvantage x ≤ 1 :=
  max_le (by norm_num) (min_le_left _ _)

theorem clampAdvantage_eq_self {x : ℚ} (h1 : -1 ≤ x) (h2 : x ≤ 1) :
    clampAdvantage x = x := by
  unfold clampAdvantage
  rw [min_eq_right h2, max_eq_right h1]

theorem livingPoints_nonneg {units : List Unit}
    (h : ∀ u ∈ units, 0 ≤ u.points_cost) : 0 ≤ livingPoints units := by
  refine List.sum_nonneg ?_
  intro x hx
  obtain ⟨u, hu, rfl⟩ := List.mem_map.mp hx
  exact h u (List.mem_of_mem_filter hu)

theorem mem_materialFactors_p1 (ms : ℚ) :
    "Player 1 has more material" ∈ materialFactors ms ↔ 1/10 < ms := by
  unfold materialFactors
  split_ifs with h h0
  · simp only [List.mem_singleton]
    exact iff_of_true (by decide) (by rw [abs_of_pos h0] at h; exact h)
  · simp only [List.mem_singleton]
    refine iff_of_false (by decide) (fun hc => h0 (by linarith))
  · refine iff_of_false (List.not_mem_nil _) (fun hc => h (lt_of_lt_of_le hc (le_abs_self ms)))

theorem mem_materialFactors_p2 (ms : ℚ) :
    "Player 2 has more material" ∈ materialFactors ms ↔ ms < -(1/10) := by
  unfold materialFactors
  split_ifs with h h0
  · simp only [List.mem_singleton]
    refine iff_of_false (by decide) (fun hc => absurd h0 (by linarith))
  · simp only [List.mem_singleton]
    refine iff_of_true (by decide) ?_
    rw [abs_of_nonpos (le_of_not_lt h0)] at h
    linarith
  · refine iff_of_false (List.not_mem_nil _) (fun hc => h ?_)
    rw [abs_of_nonpos (by linarith)]
    linarith

theorem mem_vpFactors_p1 (d : Int) :
    "Player 1 leads on VP" ∈ vpFactors d ↔ 5 ≤ d := by
  unfold vpFactors
  split_ifs with h h0
  · simp only [List.mem_singleton]
    exact iff_of_true (by decide) (by rwa [abs_of_pos h0] at h)
  · simp only [List.mem_singleton]
    refine iff_of_false (by decide) (fun hc => h0 (by omega))
  · refine iff_of_false (List.not_mem_nil _)
      (fun hc => h (le_trans hc (le_abs_self d)))

theorem mem_vpFactors_p2 (d : Int) :
    "Player 2 leads on VP" ∈ vpFactors d ↔ d ≤ -5 := by
  unfold vpFactors
  split_ifs with h h0
  · simp only [List.mem_singleton]
    refine iff_of_false (by decide) (fun hc => absurd h0 (by omega))
  · simp only [List.mem_singleton]
    refine iff_of_true (by decide) ?_
    rw [abs_of_nonpos (by omega)] at h
    omega
  · refine iff_of_false (List.not_mem_nil _)
      (fun hc => h (le_trans (by omega : (5:Int) ≤ -d) (neg_le_abs d)))

theorem material_p1_not_mem_vpFactors (d : Int) :
    "Player 1 has more material" ∉ vpFactors d := by
  unfold vpFactors
  split_ifs with h h0
  · simp only [List.mem_singleton]
    decide
  · simp only [List.mem_singleton]
    decide
  · exact List.not_mem_nil _

theorem material_p2_not_mem_vpFactors (d : Int) :
    "Player 2 has more material" ∉ vpFactors d := by
  unfold vpFactors
  split_ifs with h h0
  · simp only [List.mem_singleton]
    decide
  · simp only [List.mem_singleton]
    decide
  · exact List.not_mem_nil _

theorem vp_p1_not_mem_materialFactors (ms : ℚ) :
    "Player 1 leads on VP" ∉ materialFactors ms := by
  unfold materialFactors
  split_ifs with h h0
  · simp only [List.mem_singleton]
    decide
  · simp only [List.mem_singleton]
    decide
  · exact List.not_mem_nil _

theorem vp_p2_not_mem_materialFactors (ms : ℚ) :
    "Player 2 leads on VP" ∉ materialFactors ms := by
  unfold materialFactors
  split_ifs with h h0
  · simp only [List.mem_singleton]
    decide
  · simp only [List.mem_singleton]
    decide
  · exact List.not_mem_nil _

/-! ### Claim theorems -/

/-- C1: for every GameState, `evaluate` returns a `PositionEvaluation`
whose `player_advantage` equals
`clamp(material_score * 0.4 + vp_score * 0.6, -1.0, 1.0)`, and this
`player_advantage` always lies within [-1.0, 1.0]. -/
theorem evaluate_player_advantage_clamped (expFn : ℚ → ℚ) (s : GameState) :
    (evaluate expFn s).player_advantage =
      clampAdvantage ((evaluate expFn s).material_score * (4/10) +
        (evaluate expFn s).vp_score * (6/10)) ∧
    -1 ≤ (evaluate expFn s).player_advantage ∧
    (evaluate expFn s).player_advantage ≤ 1 :=
  ⟨rfl, neg_one_le_clampAdvantage _, clampAdvantage_le_one _⟩

/-- C5: for every GameState, `evaluate` sets
`confidence = min(0.3 + turn_number * 0.1, 0.9)`; confidence is
monotonically non-decreasing in `turn_number`, never exceeds 0.9, and
equals 0.4 for `turn_number = 1`. -/
theorem evaluate_confidence_spec :
    (∀ (expFn : ℚ → ℚ) (s : GameState),
      (evaluate expFn s).confidence =
        min (3/10 + (s.turn_number : ℚ) * (1/10)) (9/10)) ∧
    (∀ (expFn : ℚ → ℚ) (s : GameState) (t t' : Int), t ≤ t' →
      (evaluate expFn { s with turn_number := t }).confidence ≤
        (evaluate expFn { s with turn_number := t' }).confidence) ∧
    (∀ (expFn : ℚ → ℚ) (s : GameState),
      (evaluate expFn s).confidence ≤ 9/10) ∧
    (∀ (expFn : ℚ → ℚ) (s : GameState), s.turn_number = 1 →
      (evaluate expFn s).confidence = 2/5) := by
  refine ⟨fun expFn s => rfl, ?_, ?_, ?_⟩
  · intro expFn s t t' h
    show confidenceAt t ≤ confidenceAt t'
    unfold confidenceAt
    have hq : (t : ℚ) ≤ (t' : ℚ) := by exact_mod_cast h
    exact min_le_min (by linarith) le_rfl
  · intro expFn s
    exact min_le_right _ _
  · intro expFn s h
    rw [evaluate_confidence_eq, h]
    unfold confidenceAt
    have h1 : (3/10 : ℚ) + ((1 : Int) : ℚ) * (1/10) = 2/5 := by norm_num
    rw [h1, min_eq_left (by norm_num)]

/-- Witness for C5 at concrete inputs: turn 1 against turn 2, and the
turn-1 value. -/
theorem evaluate_confidence_spec_witness :
    (evaluate (fun _ => 1) { ({} : GameState) with turn_number := 1 }).confidence ≤
      (evaluate (fun _ => 1) { ({} : GameState) with turn_number := 2 }).confidence ∧
    (evaluate (fun _ => 1) ({} : GameState)).confidence = 2/5 :=
  ⟨evaluate_confidence_spec.2.1 (fun _ => 1) {} 1 2 (by decide),
   evaluate_confidence_spec.2.2.2 (fun _ => 1) {} rfl⟩

/-- C2: for every GameState whose units have non-negative point costs
(the data-model invariant), `evaluate` computes `material_score` as the
normalized living-points difference (0.0 when the total is zero), and a
factor naming the leading player is in `key_factors` exactly when
`|material_score| > 0.1`. -/
theorem evaluate_material_spec (expFn : ℚ → ℚ) (s : GameState)
    (hpts : ∀ u ∈ s.player1_units ++ s.player2_units, 0 ≤ u.points_cost) :
    ((evaluate expFn s).material_score =
      if livingPoints s.player1_units + livingPoints s.player2_units = 0 then 0
      else ((livingPoints s.player1_units - livingPoints s.player2_units : Int) : ℚ) /
        ((livingPoints s.player1_units + livingPoints s.player2_units : Int) : ℚ)) ∧
    ("Player 1 has more material" ∈ (evaluate expFn s).key_factors ↔
      1/10 < (evaluate expFn s).material_score) ∧
    ("Player 2 has more material" ∈ (evaluate expFn s).key_factors ↔
      (evaluate expFn s).material_score < -(1/10)) := by
  have hp1 : 0 ≤ livingPoints s.player1_units :=
    livingPoints_nonneg (fun u hu => hpts u (List.mem_append_left _ hu))
  have hp2 : 0 ≤ livingPoints s.player2_units :=
    livingPoints_nonneg (fun u hu => hpts u (List.mem_append_right _ hu))
  refine ⟨?_, ?_, ?_⟩
  · rw [evaluate_material_score_eq]
    unfold materialScore
    rcases lt_or_eq_of_le
        (by omega : (0:Int) ≤ livingPoints s.player1_units + livingPoints s.player2_units)
      with h | h
    · rw [if_pos h, if_neg (by omega)]
    · rw [if_neg (by omega), if_pos h.symm]
  · rw [evaluate_key_factors_eq, List.mem_append,
      or_iff_left (material_p1_not_mem_vpFactors _), mem_materialFactors_p1,
      evaluate_material_score_eq]
  · rw [evaluate_key_factors_eq, List.mem_append,
      or_iff_left (material_p2_not_mem_vpFactors _), mem_materialFactors_p2,
      evaluate_material_score_eq]

/-- Witness for C2: the material scenario state, whose units carry
non-negative point costs. -/
theorem evaluate_material_spec_witness :
    ((evaluate (fun _ => 1) materialScenario).material_score =
      if livingPoints materialScenario.player1_units +
          livingPoints materialScenario.player2_units = 0 then 0
      else ((livingPoints materialScenario.player1_units -
          livingPoints materialScenario.player2_units : Int) : ℚ) /
        ((livingPoints materialScenario.player1_units +
          livingPoints materialScenario.player2_units : Int) : ℚ)) ∧
    ("Player 1 has more material" ∈ (evaluate (fun _ => 1) materialScenario).key_factors ↔
      1/10 < (evaluate (fun _ => 1) materialScenario).material_score) ∧
    ("Player 2 has more material" ∈ (evaluate (fun _ => 1) materialScenario).key_factors ↔
      (evaluate (fun _ => 1) materialScenario).material_score < -(1/10)) :=
  evaluate_material_spec (fun _ => 1) materialScenario (by decide)

/-- C3: for every GameState, `evaluate` computes
`vp_score = (player1_vp - player2_vp) / max(player1_vp + player2_vp, 1)`
and a factor naming the VP leader is in `key_factors` exactly when
`|vp_diff| >= 5`; with vp 10/0 and no units, `vp_score = 1`,
`player_advantage = 0.6` and the VP-lead factor for player 1 is
present. -/
theorem evaluate_vp_spec :
    (∀ (expFn : ℚ → ℚ) (s : GameState),
      (evaluate expFn s).vp_score =
        ((s.player1_vp - s.player2_vp : Int) : ℚ) /
          ((max (s.player1_vp + s.player2_vp) 1 : Int) : ℚ) ∧
      ("Player 1 leads on VP" ∈ (evaluate expFn s).key_factors ↔
        5 ≤ s.player1_vp - s.player2_vp) ∧
      ("Player 2 leads on VP" ∈ (evaluate expFn s).key_factors ↔
        s.player1_vp - s.player2_vp ≤ -5)) ∧
    (∀ expFn : ℚ → ℚ,
      (evaluate expFn { player1_vp := 10 }).vp_score = 1 ∧
      (evaluate expFn { player1_vp := 10 }).material_score = 0 ∧
      (evaluate expFn { player1_vp := 10 }).player_advantage = 3/5 ∧
      "Player 1 leads on VP" ∈ (evaluate expFn { player1_vp := 10 }).key_factors) := by
  constructor
  · intro expFn s
    refine ⟨?_, ?_, ?_⟩
    · rw [evaluate_vp_score_eq]
      simp only [vpScore]
      rw [if_pos (lt_of_lt_of_le Int.one_pos (le_max_right _ _))]
    · rw [evaluate_key_factors_eq, List.mem_append,
        or_iff_right (vp_p1_not_mem_materialFactors _), mem_vpFactors_p1]
    · rw [evaluate_key_factors_eq, List.mem_append,
        or_iff_right (vp_p2_not_mem_materialFactors _), mem_vpFactors_p2]
  · intro expFn
    refine ⟨?_, ?_, ?_, ?_⟩
    · rw [evaluate_vp_score_eq]
      unfold vpScore
      norm_num
    · rw [evaluate_material_score_eq]
      unfold materialScore
      norm_num [livingPoints]
    · rw [evaluate_player_advantage_eq]
      norm_num [livingPoints, materialScore, vpScore, clampAdvantage]
    · rw [evaluate_key_factors_eq]
      refine List.mem_append_right _ ?_
      rw [mem_vpFactors_p1]
      decide

/-- C6: for the 200-points-versus-50-points scenario, `evaluate`
returns `material_score = 0.6`, `vp_score = 0.0`,
`player_advantage = 0.24`, `key_factors` containing "Player 1 has more
material" and no VP factor. -/
theorem evaluate_material_scenario_spec (expFn : ℚ → ℚ) :
    (evaluate expFn materialScenario).material_score = 6/10 ∧
    (evaluate expFn materialScenario).vp_score = 0 ∧
    (evaluate expFn materialScenario).player_advantage = 24/100 ∧
    "Player 1 has more material" ∈ (evaluate expFn materialScenario).key_factors ∧
    "Player 1 leads on VP" ∉ (evaluate expFn materialScenario).key_factors ∧
    "Player 2 leads on VP" ∉ (evaluate expFn materialScenario).key_factors := by
  have hl1 : livingPoints materialScenario.player1_units = 200 := by decide
  have hl2 : livingPoints materialScenario.player2_units = 50 := by decide
  have hv1 : materialScenario.player1_vp = 0 := rfl
  have hv2 : materialScenario.player2_vp = 0 := rfl
  refine ⟨?_, ?_, ?_, ?_, ?_, ?_⟩
  · rw [evaluate_material_score_eq, hl1, hl2]
    unfold materialScore
    norm_num
  · rw [evaluate_vp_score_eq, hv1, hv2]
    unfold vpScore
    norm_num
  · rw [evaluate_player_advantage_eq, hl1, hl2, hv1, hv2]
    norm_num [materialScore, vpScore, clampAdvantage]
  · rw [evaluate_key_factors_eq]
    refine List.mem_append_left _ ?_
    rw [mem_materialFactors_p1, hl1, hl2]
    unfold materialScore
    norm_num
  · rw [evaluate_key_factors_eq, List.mem_append]
    rintro (h | h)
    · exact vp_p1_not_mem_materialFactors _ h
    · exact absurd ((mem_vpFactors_p1 _).mp h) (by decide)
  · rw [evaluate_key_factors_eq, List.mem_append]
    rintro (h | h)
    · exact vp_p2_not_mem_materialFactors _ h
    · exact absurd ((mem_vpFactors_p2 _).mp h) (by decide)

/-- C4: `evaluate` sets `win_probability = 1 / (1 + exp(-player_advantage * 3))`;
the exact real sigmoid is strictly increasing and equals 0.5 exactly at
advantage 0. -/
theorem evaluate_win_probability_spec :
    (∀ (expFn : ℚ → ℚ) (s : GameState),
      (evaluate expFn s).win_probability =
        1 / (1 + expFn (-(evaluate expFn s).player_advantage * 3))) ∧
    (∀ x y : ℝ, x < y → sigmoid x < sigmoid y) ∧
    (∀ x : ℝ, sigmoid x = 1/2 ↔ x = 0) := by
  refine ⟨fun expFn s => rfl, ?_, ?_⟩
  · intro x y h
    unfold sigmoid
    have he : Real.exp (-y * 3) < Real.exp (-x * 3) :=
      Real.exp_lt_exp.mpr (by linarith)
    have h1 : 0 < 1 + Real.exp (-y * 3) := by positivity
    exact one_div_lt_one_div_of_lt h1 (by linarith)
  · intro x
    unfold sigmoid
    constructor
    · intro h
      have hpos : 0 < 1 + Real.exp (-x * 3) := by positivity
      rw [div_eq_div_iff hpos.ne' (by norm_num : (2:ℝ) ≠ 0)] at h
      have hexp : Real.exp (-x * 3) = 1 := by linarith
      rw [Real.exp_eq_one_iff] at hexp
      linarith
    · rintro rfl
      norm_num

/-- Witness for C4: strict growth of the sigmoid from 0 to 1, and the
half value at 0. -/
theorem evaluate_win_probability_spec_witness :
    sigmoid 0 < sigmoid 1 ∧ (sigmoid 0 = 1/2 ↔ (0:ℝ) = 0) :=
  ⟨evaluate_win_probability_spec.2.1 0 1 (by norm_num),
   evaluate_win_probability_spec.2.2 0⟩

/-- C8: `explain` buckets `player_advantage` into five bands with strict
comparisons (each exact boundary value falls into the lower-magnitude
band), then appends the joined `key_factors` (or the placeholder when
the list is empty) and the win probability as an integer percentage. -/
theorem explain_spec :
    (∀ e : PositionEvaluation,
      e.explain = advantagePhrase e.player_advantage ++ ". Key factors: " ++
        factorsText e.key_factors ++ ". Win probability: " ++
        toString (roundHalfEven (e.win_probability * 100)) ++ "%") ∧
    (∀ pa : ℚ,
      (advantagePhrase pa = "Player 1 has a significant advantage" ↔ 3/10 < pa) ∧
      (advantagePhrase pa = "Player 1 has a slight advantage" ↔ 1/10 < pa ∧ pa ≤ 3/10) ∧
      (advantagePhrase pa = "Player 2 has a significant advantage" ↔ pa < -(3/10)) ∧
      (advantagePhrase pa = "Player 2 has a slight advantage" ↔ -(3/10) ≤ pa ∧ pa < -(1/10)) ∧
      (advantagePhrase pa = "The position is roughly equal" ↔ -(1/10) ≤ pa ∧ pa ≤ 1/10)) ∧
    advantagePhrase (3/10) = "Player 1 has a slight advantage" ∧
    advantagePhrase (-(3/10)) = "Player 2 has a slight advantage" ∧
    advantagePhrase (1/10) = "The position is roughly equal" ∧
    advantagePhrase (-(1/10)) = "The position is roughly equal" ∧
    factorsText [] = "No specific factors" ∧
    factorsText ["Player 1 has more material", "Player 1 leads on VP"] =
      "Player 1 has more material, Player 1 leads on VP" := by
  refine ⟨fun e => rfl, ?_, ?_, ?_, ?_, ?_, rfl, rfl⟩
  · intro pa
    unfold advantagePhrase
    split_ifs with h1 h2 h3 h4
    · exact ⟨iff_of_true rfl h1,
        iff_of_false (by decide) (fun hc => absurd h1 (not_lt.mpr hc.2)),
        iff_of_false (by decide) (fun hc => by linarith),
        iff_of_false (by decide) (fun hc => by linarith [hc.2]),
        iff_of_false (by decide) (fun hc => by linarith [hc.2])⟩
    · exact ⟨iff_of_false (by decide) h1,
        iff_of_true rfl ⟨h2, le_of_not_lt h1⟩,
        iff_of_false (by decide) (fun hc => by linarith),
        iff_of_false (by decide) (fun hc => by linarith [hc.2]),
        iff_of_false (by decide) (fun hc => by linarith [hc.2])⟩
    · exact ⟨iff_of_false (by decide) h1,
        iff_of_false (by decide) (fun hc => by linarith [hc.1]),
        iff_of_true rfl h3,
        iff_of_false (by decide) (fun hc => by linarith [hc.1]),
        iff_of_false (by decide) (fun hc => by linarith [hc.1])⟩
    · exact ⟨iff_of_false (by decide) h1,
        iff_of_false (by decide) (fun hc => by linarith [hc.1]),
        iff_of_false (by decide) h3,
        iff_of_true rfl ⟨le_of_not_lt h3, h4⟩,
        iff_of_false (by decide) (fun hc => by linarith [hc.1])⟩
    · exact ⟨iff_of_false (by decide) h1,
        iff_of_false (by decide) (fun hc => h2 hc.1),
        iff_of_false (by decide) h3,
        iff_of_false (by decide) (fun hc => h4 hc.2),
        iff_of_true rfl ⟨le_of_not_lt h4, le_of_not_lt h2⟩⟩
  · unfold advantagePhrase
    norm_num
  · unfold advantagePhrase
    norm_num
  · unfold advantagePhrase
    norm_num
  · unfold advantagePhrase
    norm_num

/-- C7 counterexample: constructing a `GameState` whose two rosters
contain the same unit id succeeds — the source performs no
duplicate-unit-id validation and raises no `InvalidStateError`. -/
theorem construct_accepts_duplicate_ids :
    GameState.construct [dupUnit] [dupUnit] 1 0 0 = .ok dupState ∧
    ¬ (rosterIds [dupUnit] [dupUnit]).Nodup := by
  refine ⟨rfl, by decide⟩

/-- C7 amended: `GameState` construction in the source never fails — in
particular duplicate unit ids across the rosters are accepted — while
the validating constructor the spec mandates rejects rosters exactly
when a unit id occurs twice across them. -/
theorem construct_no_duplicate_validation :
    (∀ (p1 p2 : List Unit) (turn v1 v2 : Int),
      (GameState.construct p1 p2 turn v1 v2).isOk = true) ∧
    (∀ p1 p2 : List Unit,
      validateRosters p1 p2 = .error "InvalidStateError" ↔
        ¬ (rosterIds p1 p2).Nodup) := by
  refine ⟨fun p1 p2 turn v1 v2 => rfl, ?_⟩
  intro p1 p2
  unfold validateRosters
  split_ifs with h
  · exact iff_of_false (by simp) (fun hc => hc h)
  · exact iff_of_true rfl h

/-- C9: on a structurally valid `GameState` (turn at least 1,
non-negative point costs and victory points) and any positive-valued
`exp`, `evaluate` never fails: the pydantic range validation of the
constructed `PositionEvaluation` passes, and the zero-total cases are
defined zero-score results, not division errors. -/
theorem evaluate_total_on_valid (expFn : ℚ → ℚ) (s : GameState)
    (hexp : ∀ x : ℚ, 0 < expFn x) (ht : 1 ≤ s.turn_number)
    (_hpts : ∀ u ∈ s.player1_units ++ s.player2_units, 0 ≤ u.points_cost)
    (hvp1 : 0 ≤ s.player1_vp) (hvp2 : 0 ≤ s.player2_vp) :
    evaluateChecked expFn s = .ok (evaluate expFn s) ∧
    (livingPoints s.player1_units + livingPoints s.player2_units = 0 →
      (evaluate expFn s).material_score = 0) ∧
    (s.player1_vp + s.player2_vp = 0 → (evaluate expFn s).vp_score = 0) := by
  refine ⟨?_, ?_, ?_⟩
  · have hok : (evaluate expFn s).fieldConstraintsOk = true := by
      unfold PositionEvaluation.fieldConstraintsOk
      rw [decide_eq_true_eq]
      refine ⟨neg_one_le_clampAdvantage _, clampAdvantage_le_one _, ?_, ?_, ?_, ?_⟩
      · have he := hexp (-(evaluate expFn s).player_advantage * 3)
        show (0:ℚ) ≤ 1 / (1 + expFn (-(evaluate expFn s).player_advantage * 3))
        exact le_of_lt (div_pos one_pos (by linarith))
      · have he := hexp (-(evaluate expFn s).player_advantage * 3)
        show 1 / (1 + expFn (-(evaluate expFn s).player_advantage * 3)) ≤ 1
        rw [div_le_one (by linarith)]
        linarith
      · rw [evaluate_confidence_eq]
        unfold confidenceAt
        have htq : (1:ℚ) ≤ (s.turn_number : ℚ) := by exact_mod_cast ht
        exact le_min (by linarith) (by norm_num)
      · rw [evaluate_confidence_eq]
        unfold confidenceAt
        exact le_trans (min_le_right _ _) (by norm_num)
    unfold evaluateChecked
    rw [if_pos hok]
  · intro h
    rw [evaluate_material_score_eq]
    unfold materialScore
    rw [if_neg (by omega)]
  · intro h
    have h1 : s.player1_vp = 0 := by omega
    have h2 : s.player2_vp = 0 := by omega
    rw [evaluate_vp_score_eq, h1, h2]
    unfold vpScore
    norm_num

/-- Witness for C9: the empty game state with the constant-1 `exp`. -/
theorem evaluate_total_on_valid_witness :
    evaluateChecked (fun _ => 1) ({} : GameState) =
      .ok (evaluate (fun _ => 1) ({} : GameState)) ∧
    (livingPoints ({} : GameState).player1_units +
        livingPoints ({} : GameState).player2_units = 0 →
      (evaluate (fun _ => 1) ({} : GameState)).material_score = 0) ∧
    (({} : GameState).player1_vp + ({} : GameState).player2_vp = 0 →
      (evaluate (fun _ => 1) ({} : GameState)).vp_score = 0) :=
  evaluate_total_on_valid (fun _ => 1) {} (fun _ => one_pos) (by decide)
    (by decide) (by decide) (by decide)

theorem abs_materialScore_le_one {p1 p2 : Int} (h1 : 0 ≤ p1) (h2 : 0 ≤ p2) :
    |materialScore p1 p2| ≤ 1 := by
  unfold materialScore
  split_ifs with h
  · have hq : (0:ℚ) < ((p1 + p2 : Int) : ℚ) := by exact_mod_cast h
    have c1 : (0:ℚ) ≤ ((p1 : Int) : ℚ) := by exact_mod_cast h1
    have c2 : (0:ℚ) ≤ ((p2 : Int) : ℚ) := by exact_mod_cast h2
    rw [abs_le]
    constructor
    · rw [le_div_iff₀ hq]
      push_cast
      push_cast at c1 c2
      linarith
    · rw [div_le_one hq]
      push_cast
      push_cast at c1 c2
      linarith
  · norm_num

theorem abs_vpScore_le_one {v1 v2 : Int} (h1 : 0 ≤ v1) (h2 : 0 ≤ v2) :
    |vpScore v1 v2| ≤ 1 := by
  rw [show vpScore v1 v2 =
      if 0 < max (v1 + v2) 1 then
        ((v1 - v2 : Int) : ℚ) / ((max (v1 + v2) 1 : Int) : ℚ)
      else 0 from rfl]
  have hm : (0:Int) < max (v1 + v2) 1 :=
    lt_of_lt_of_le Int.one_pos (le_max_right _ _)
  have hmq : (0:ℚ) < ((max (v1 + v2) 1 : Int) : ℚ) := by exact_mod_cast hm
  rw [if_pos hm, abs_div, abs_of_pos hmq, div_le_one hmq]
  have habs : |v1 - v2| ≤ max (v1 + v2) 1 :=
    le_trans (by rw [abs_le]; omega) (le_max_left _ _)
  exact_mod_cast habs

/-- C10: with non-negative unit point costs and victory points, the
unclamped combined score already lies within [-1, 1], so the clamp of
line 106 never changes the value and `evaluate` coincides with the
clamp-free variant. -/
theorem evaluate_clamp_redundant (expFn : ℚ → ℚ) (s : GameState)
    (hpts : ∀ u ∈ s.player1_units ++ s.player2_units, 0 ≤ u.points_cost)
    (hvp1 : 0 ≤ s.player1_vp) (hvp2 : 0 ≤ s.player2_vp) :
    (-1 ≤ (evaluate expFn s).material_score * (4/10) +
        (evaluate expFn s).vp_score * (6/10) ∧
      (evaluate expFn s).material_score * (4/10) +
        (evaluate expFn s).vp_score * (6/10) ≤ 1) ∧
    evaluate expFn s = evaluateNoClamp expFn s := by
  have hp1 : 0 ≤ livingPoints s.player1_units :=
    livingPoints_nonneg (fun u hu => hpts u (List.mem_append_left _ hu))
  have hp2 : 0 ≤ livingPoints s.player2_units :=
    livingPoints_nonneg (fun u hu => hpts u (List.mem_append_right _ hu))
  have hms := abs_le.mp (abs_materialScore_le_one hp1 hp2)
  have hvs := abs_le.mp (abs_vpScore_le_one hvp1 hvp2)
  have hlow : -1 ≤ materialScore (livingPoints s.player1_units)
      (livingPoints s.player2_units) * (4/10) +
        vpScore s.player1_vp s.player2_vp * (6/10) := by
    obtain ⟨a1, a2⟩ := hms
    obtain ⟨b1, b2⟩ := hvs
    linarith
  have hhigh : materialScore (livingPoints s.player1_units)
      (livingPoints s.player2_units) * (4/10) +
        vpScore s.player1_vp s.player2_vp * (6/10) ≤ 1 := by
    obtain ⟨a1, a2⟩ := hms
    obtain ⟨b1, b2⟩ := hvs
    linarith
  have hc : clampAdvantage (materialScore (livingPoints s.player1_units)
      (livingPoints s.player2_units) * (4/10) +
        vpScore s.player1_vp s.player2_vp * (6/10)) =
      materialScore (livingPoints s.player1_units)
        (livingPoints s.player2_units) * (4/10) +
        vpScore s.player1_vp s.player2_vp * (6/10) :=
    clampAdvantage_eq_self hlow hhigh
  refine ⟨⟨?_, ?_⟩, ?_⟩
  · rw [evaluate_material_score_eq, evaluate_vp_score_eq]
    exact hlow
  · rw [evaluate_material_score_eq, evaluate_vp_score_eq]
    exact hhigh
  · simp only [evaluate, evaluateNoClamp, hc]

/-- Witness for C10: the material scenario, whose costs and victory
points are non-negative. -/
theorem evaluate_clamp_redundant_witness :
    (-1 ≤ (evaluate (fun _ => 1) materialScenario).material_score * (4/10) +
        (evaluate (fun _ => 1) materialScenario).vp_score * (6/10) ∧
      (evaluate (fun _ => 1) materialScenario).material_score * (4/10) +
        (evaluate (fun _ => 1) materialScenario).vp_score * (6/10) ≤ 1) ∧
    evaluate (fun _ => 1) materialScenario =
      evaluateNoClamp (fun _ => 1) materialScenario :=
  evaluate_clamp_redundant (fun _ => 1) materialScenario (by decide)
    (by decide) (by decide)

end Primordia
